import Mathlib

/-!
Verification of the two scripts in this repository.

* `run_migration.py` — a linear migration runner: it reads a SQL file,
  connects to a PostgreSQL database with autocommit on, executes the file
  content as one batch, runs three verification queries, prints their
  results and closes the connection; every failure is caught at the top
  level, printed, and terminates the process with exit code 1.

* `prediction-market-frontend/fix-auth.py` — a one-shot text patcher:
  it reads `src/services/blockchainService.ts`, applies one `re.sub`
  with a fixed pattern and replacement, writes the result back and
  prints a success message.

The scripts are embedded shallowly.  `run_migration.py` is modelled as a
function from an environment (the file-system and database responses the
script can observe) to the trace of externally visible actions, the list
of printed lines and the process exit code.  `fix-auth.py`'s `re.sub`
call is modelled by an executable matcher for its fixed pattern.
-/

namespace Bebrafun

/-! ## `run_migration.py` : constants from the source -/

/-- `migration_file` (line 14 of `run_migration.py`): the hard-coded path. -/
def migration_file : String :=
  "C:\\Users\\mormeli\\.gemini\\antigravity\\scratch\\bebrafun\\prediction-market\\migrations\\012_add_admin_user.sql"

/-- Lines 22-23: `sql_lines`/`sql_clean` — drop the lines that, once
stripped, start with `--`, and re-join with newlines.  Computed by the
script but never used afterwards. -/
def sql_clean (sql_content : String) : String :=
  String.intercalate "\n"
    ((sql_content.splitOn "\n").filter (fun line => !(line.trim.startsWith "--")))

/-- Line 44: the duels verification query. -/
def duelsQuery : String := "SELECT status, COUNT(*) FROM duels GROUP BY status;"

/-- Line 51: the markets verification query. -/
def marketsQuery : String := "SELECT status, COUNT(*) FROM markets GROUP BY status;"

/-- Lines 58-63: the admin-user verification query (a Python triple-quoted
string, reproduced verbatim, apostrophes written as `\x27`). -/
def adminQuery : String :=
  "\n        SELECT au.id, au.role, u.wallet_address, au.created_at\n        FROM admin_users au\n        JOIN users u ON u.id = au.user_id\n        WHERE u.wallet_address = \x27ARytv9UPs8ajtsHboVgtVJDwz1u7VrHTfDj8qERFrcJE\x27;\n    "

/-- `"=" * 60` (lines 31, 37, 74). -/
def bar60 : String := String.mk (List.replicate 60 '=')

/-- `"-" * 60` (line 41). -/
def dash60 : String := String.mk (List.replicate 60 '-')

/-! ## Environment: what the outside world answers to the script -/

/-- One row of the `admin_users ⋈ users` verification query
(line 59: `au.id, au.role, u.wallet_address, au.created_at`). -/
structure AdminRow where
  id : Nat
  role : String
  wallet : String
  created_at : String
deriving DecidableEq, Repr

/-- The observable behaviour of the outside world during one run:
whether the migration file exists and its content, whether
`psycopg2.connect` raises (`some` carries the error text), whether
`cursor.execute(sql_content)` raises, and the rows the three
verification queries return.  `adminRows` is the full result set of the
admin query as the database would produce it; the script itself fetches
from it with `fetchone()`. -/
structure Env where
  fileContent : Option String
  connectErr : Option String
  execErr : Option String
  duelsRows : List (String × Nat)
  marketsRows : List (String × Nat)
  adminRows : List AdminRow
deriving DecidableEq, Repr

/-! ## Event trace -/

/-- Externally visible actions of `run_migration.py`, in program order.
`executeMigration` is the `cursor.execute(sql_content)` call of line 34;
`query` is a `cursor.execute` of one of the three fixed verification
queries (lines 44, 51, 58).  `beginTxn`/`commitTxn` are never emitted:
the source contains no `BEGIN`/`conn.commit()` — they exist so that the
absence of explicit transaction wrapping is expressible. -/
inductive Event where
  | readFile (path : String)
  | connect
  | setAutocommit
  | executeMigration (sql : String)
  | query (sql : String)
  | beginTxn
  | commitTxn
  | closeCursor
  | closeConn
deriving DecidableEq, Repr

/-- Program-order rank of each kind of action in the source. -/
def phase : Event → Nat
  | Event.readFile _ => 0
  | Event.connect => 1
  | Event.setAutocommit => 2
  | Event.executeMigration _ => 3
  | Event.query _ => 4
  | Event.beginTxn => 7
  | Event.commitTxn => 8
  | Event.closeCursor => 5
  | Event.closeConn => 6

/-! ## Printed output -/

/-- Line 81: the file-not-found diagnostic. -/
def notFoundLine : String := "❌ Migration file not found: " ++ migration_file

/-- Line 84: the database-error diagnostic. -/
def dbErrorLine (e : String) : String := "❌ Database error: " ++ e

/-- Line 48 / 55: one `  status: count` line of a grouped-count result. -/
def statusLine (p : String × Nat) : String :=
  match p with
  | (st, cnt) => "  " ++ st ++ ": " ++ toString cnt

/-- Lines 64-72: the admin-user verification display.  `fetchone()`
returns the first row of the result set or `None`; the `if admin_result:`
test then selects the four field lines or the not-found warning. -/
def adminSection (rows : List AdminRow) : List String :=
  "\n👤 Admin user:" ::
  match rows.head? with
  | some r =>
      ["  ID: " ++ toString r.id,
       "  Role: " ++ r.role,
       "  Wallet: " ++ r.wallet,
       "  Created: " ++ r.created_at]
  | none => ["  ❌ Admin user not found!"]

/-- Everything printed on the fully successful path (lines 17-75). -/
def successOutput (env : Env) : List String :=
  ["📖 Reading migration file...",
   "🔌 Connecting to Railway database...",
   "🚀 Executing migration...", bar60,
   "✅ Migration executed successfully!", bar60,
   "\n📊 Verification Results:", dash60,
   "\n🥊 Duels by status:"] ++ env.duelsRows.map statusLine ++
  ("\n📈 Markets by status:" :: env.marketsRows.map statusLine) ++
  adminSection env.adminRows ++
  ["\n" ++ bar60, "✅ All done!"]

/-! ## The script -/

/-- Result of one process run: the action trace, the printed lines and
the exit code (`sys.exit(1)` in every `except` handler, implicit 0 on
success). -/
structure RunResult where
  events : List Event
  output : List String
  exitCode : Nat
deriving DecidableEq, Repr

/-- The whole of `run_migration.py` (lines 16-88).  The `try` body runs
in order: read the file, compute `sql_clean` (unused), connect, set
`conn.autocommit = True`, execute `sql_content`, run the three
verification queries, print, close cursor and connection.  A missing
file is caught by `except FileNotFoundError` (exit 1, one diagnostic,
before any connection attempt); a `psycopg2.Error` from connect or
execute is caught at line 83 (exit 1); none of the `except` handlers
closes the connection. -/
def runMigration (env : Env) : RunResult :=
  match env.fileContent with
  | none =>
      { events := [Event.readFile migration_file],
        output := ["📖 Reading migration file...", notFoundLine],
        exitCode := 1 }
  | some sql_content =>
      match env.connectErr with
      | some e =>
          { events := [Event.readFile migration_file, Event.connect],
            output := ["📖 Reading migration file...",
                       "🔌 Connecting to Railway database...",
                       dbErrorLine e],
            exitCode := 1 }
      | none =>
          match env.execErr with
          | some e =>
              { events := [Event.readFile migration_file, Event.connect,
                           Event.setAutocommit,
                           Event.executeMigration sql_content],
                output := ["📖 Reading migration file...",
                           "🔌 Connecting to Railway database...",
                           "🚀 Executing migration...", bar60,
                           dbErrorLine e],
                exitCode := 1 }
          | none =>
              { events := [Event.readFile migration_file, Event.connect,
                           Event.setAutocommit,
                           Event.executeMigration sql_content,
                           Event.query duelsQuery, Event.query marketsQuery,
                           Event.query adminQuery,
                           Event.closeCursor, Event.closeConn],
                output := successOutput env,
                exitCode := 0 }

end Bebrafun

namespace FixAuth

/-!
## `prediction-market-frontend/fix-auth.py`

The script reads `src/services/blockchainService.ts`, runs one
`re.sub(old_pattern, new_code, content, flags=re.DOTALL)`, writes the
result back and prints `✅ File updated!` unconditionally.

`old_pattern` (line 8 of the script) consists exclusively of literal
character runs and `\s+` gaps, arranged as
`(\s+L1)\s+(\s+F1\s+F2\s+F3\s+F4\s+F5)` — there is no alternation, no
star and no `.` (so the `DOTALL` flag is inert).  Every `\s+` gap is
followed by a literal whose first character is not whitespace, so a
backtracking match succeeds at a position exactly when each gap is the
maximal whitespace run there (backtracking to a shorter run would leave
a whitespace character facing that non-whitespace literal character);
the single exception is the `\s+(\s+` junction between the groups,
where the combined maximal run must only have length at least 2 so it
can be split into two non-empty parts.  `matchAt` below implements
exactly that determinized match.  The replacement `new_code` uses only
the backreference `\1` (group 2 is captured by the pattern but never
used), so a match of captured group 1 `g1` is rewritten to
`g1 ++ newCodeTail`.  Literal apostrophes, backticks and braces in the
source text are written `\x27`, `\x60`, `\x7b`, `\x7d`.
-/

/-- Python `\s` on the ASCII range: space, tab, newline, CR, vertical
tab, form feed (the model does not cover non-ASCII Unicode whitespace).
-/
def isWS (c : Char) : Bool :=
  c = ' ' || c = '\t' || c = '\n' || c = '\r' || c = '\x0b' || c = '\x0c'

/-- Length of the maximal leading whitespace run. -/
def wsCount (s : List Char) : Nat := (s.takeWhile isWS).length

/-- Literal run inside group 1 of `old_pattern`. -/
def patL1 : List Char :=
  "console.log(\x27  payload:\x27, JSON.stringify(payload, null, 2));".data

/-- First literal run inside group 2 of `old_pattern`. -/
def patF1 : List Char :=
  "const response = await fetch(\x60$\x7bimport.meta.env.VITE_API_URL\x7d/api/amm/pools\x60, \x7b".data

/-- Second literal run inside group 2 of `old_pattern`. -/
def patF2 : List Char := "method: \x27POST\x27,".data

/-- Third literal run inside group 2 of `old_pattern`. -/
def patF3 : List Char :=
  "headers: \x7b \x27Content-Type\x27: \x27application/json\x27 \x7d,".data

/-- Fourth literal run inside group 2 of `old_pattern`. -/
def patF4 : List Char := "body: JSON.stringify(payload)".data

/-- Final literal run inside group 2 of `old_pattern`. -/
def patF5 : List Char := "\x7d);".data

/-- Match a tail of alternating `\s+ literal` pairs, returning the
number of characters consumed.  Each literal starts with a
non-whitespace character, so each `\s+` consumes exactly the maximal
whitespace run, which must be non-empty. -/
def matchSeq : List (List Char) → List Char → Option Nat
  | [], _ => some 0
  | l :: ls, s =>
      let w := wsCount s
      if w = 0 then none
      else if l.isPrefixOf (s.drop w) then
        match matchSeq ls ((s.drop w).drop l.length) with
        | some n => some (w + l.length + n)
        | none => none
      else none

/-- Attempt to match `old_pattern` starting at the head of `s`.  On
success, return the total match length and the text captured by group 1
(the leading whitespace run followed by `patL1`). -/
def matchAt (s : List Char) : Option (Nat × List Char) :=
  let w1 := wsCount s
  if w1 = 0 then none
  else if patL1.isPrefixOf (s.drop w1) then
    let g1len := w1 + patL1.length
    let s2 := s.drop g1len
    let w2 := wsCount s2
    if w2 < 2 then none
    else if patF1.isPrefixOf (s2.drop w2) then
      match matchSeq [patF2, patF3, patF4, patF5] ((s2.drop w2).drop patF1.length) with
      | some n => some (g1len + w2 + patF1.length + n, s.take g1len)
      | none => none
    else none
  else none

/-- The fixed text of `new_code` after the `\1` backreference
(lines 10-29 of the script), reproduced verbatim. -/
def newCodeTail : List Char :=
  "\n\n        // Get JWT token from localStorage\n        const token = localStorage.getItem(\x27token\x27);\n        const headers: HeadersInit = \x7b\n          \x27Content-Type\x27: \x27application/json\x27\n        \x7d;\n        \n        if (token) \x7b\n          headers[\x27Authorization\x27] = \x60Bearer $\x7btoken\x7d\x60;\n          console.log(\x27  ✅ Authorization token added\x27);\n        \x7d else \x7b\n          console.warn(\x27  ⚠️ No auth token found in localStorage\x27);\n        \x7d\n        \n        const response = await fetch(\x60$\x7bimport.meta.env.VITE_API_URL\x7d/api/amm/pools\x60, \x7b\n          method: \x27POST\x27,\n          headers,\n          body: JSON.stringify(payload)\n        \x7d);".data

/-- Expansion of `new_code` for a match whose group 1 captured `g1`. -/
def replacement (g1 : List Char) : List Char := g1 ++ newCodeTail

/-- The `re.sub` scan: at each position, try a match; on success emit
the replacement and continue after the match (matches never overlap),
otherwise copy one character.  `fuel` only bounds the recursion; every
step consumes at least one character, so any `fuel > s.length` computes
the true scan. -/
def subScan : Nat → List Char → List Char
  | 0, s => s
  | _ + 1, [] => []
  | fuel + 1, c :: rest =>
      match matchAt (c :: rest) with
      | some (len, g1) => replacement g1 ++ subScan fuel (rest.drop (len - 1))
      | none => c :: subScan fuel rest

/-- `re.sub(old_pattern, new_code, s, flags=re.DOTALL)`. -/
def pySub (s : List Char) : List Char := subScan (s.length + 1) s

/-- Whether `old_pattern` matches anywhere in the text. -/
def hasMatchAux : List Char → Bool
  | [] => false
  | c :: rest => (matchAt (c :: rest)).isSome || hasMatchAux rest

/-- Whether `old_pattern` matches anywhere in the file content. -/
def hasMatch (content : String) : Bool := hasMatchAux content.data

/-- The content the script writes back, as a function of the content it
read (lines 4-36 of the script). -/
def fixAuthContent (content : String) : String := String.mk (pySub content.data)

/-- Everything the script prints, as a function of the content it read:
line 38 prints the success message unconditionally. -/
def fixAuthOutput (_content : String) : List String := ["✅ File updated!"]

/-- A content fragment in the shape the patch targets: the old
`fetch` call of `blockchainService.ts` that `old_pattern` was written
against, with a line of context on each side. -/
def sampleOld : String :=
  "    async createPool() \x7b\n        console.log(\x27  payload:\x27, JSON.stringify(payload, null, 2));\n\n        const response = await fetch(\x60$\x7bimport.meta.env.VITE_API_URL\x7d/api/amm/pools\x60, \x7b\n          method: \x27POST\x27,\n          headers: \x7b \x27Content-Type\x27: \x27application/json\x27 \x7d,\n          body: JSON.stringify(payload)\n        \x7d);\n        const data = await response.json();\n    \x7d"

end FixAuth

namespace Bebrafun

/-! ## Concrete environments used to instantiate the theorems -/

/-- A run whose migration file is missing. -/
def envNoFile : Env := ⟨none, none, none, [], [], []⟩

/-- A migration payload containing a `--` comment line, so that
`sql_clean` of it differs from it. -/
def payload1 : String := "-- add admin\nINSERT INTO admin_users VALUES (1);"

/-- A successful run whose admin lookup returns no row. -/
def envOkNoAdmin : Env :=
  ⟨some payload1, none, none, [("active", 2)], [("open", 5)], []⟩

/-- A run where `cursor.execute(sql_content)` raises a syntax error. -/
def envExecFail : Env :=
  ⟨some "CREATE TABLE broken (", none, some "syntax error at end of input", [], [], []⟩

/-- A matching admin row. -/
def sampleAdmin : AdminRow :=
  ⟨3, "super_admin", "ARytv9UPs8ajtsHboVgtVJDwz1u7VrHTfDj8qERFrcJE", "2024-01-01 00:00:00"⟩

/-- A second admin row for the duplicate-rows scenario. -/
def otherAdmin : AdminRow :=
  ⟨7, "admin", "ARytv9UPs8ajtsHboVgtVJDwz1u7VrHTfDj8qERFrcJE", "2024-02-02 00:00:00"⟩

/-- A fully successful run with exactly one matching admin row. -/
def envOkAdmin : Env :=
  ⟨some "INSERT INTO admin_users VALUES (3);", none, none,
   [("active", 2)], [("open", 5)], [sampleAdmin]⟩

/-- A fully successful run whose admin query returns two rows. -/
def envTwoAdmins : Env :=
  ⟨some "INSERT INTO admin_users VALUES (3);", none, none,
   [("active", 2)], [("open", 5)], [sampleAdmin, otherAdmin]⟩

end Bebrafun

/-! ## Helper lemmas -/

namespace Bebrafun

/-- In every run, the trace visits the action kinds of the script in
nondecreasing program order. -/
lemma events_phase_sorted (env : Env) :
    List.Pairwise (fun a b => phase a ≤ phase b) (runMigration env).events := by
  rcases env with ⟨fc, ce, ee, d, m, a⟩
  cases fc with
  | none => simp [runMigration, phase, List.pairwise_cons]
  | some s =>
      cases ce with
      | some e => simp [runMigration, phase, List.pairwise_cons]
      | none =>
          cases ee with
          | some e => simp [runMigration, phase, List.pairwise_cons]
          | none => simp [runMigration, phase, List.pairwise_cons]

end Bebrafun

namespace FixAuth

/-- If `old_pattern` matches nowhere in `s`, the `re.sub` scan copies
`s` unchanged, whatever the fuel. -/
lemma subScan_eq_of_no_match (s : List Char) (h : hasMatchAux s = false) :
    ∀ fuel, subScan fuel s = s := by
  induction s with
  | nil => intro fuel; cases fuel <;> rfl
  | cons c rest ih =>
      intro fuel
      rw [hasMatchAux, Bool.or_eq_false_iff] at h
      have h1 : matchAt (c :: rest) = none := by
        cases hm : matchAt (c :: rest) with
        | none => rfl
        | some v => rw [hm] at h; simp at h
      cases fuel with
      | zero => rfl
      | succ f => rw [subScan, h1, ih h.2 f]

end FixAuth

/-! ## Claims -/

namespace Bebrafun

/-- C1: The SQL text executed against the database is exactly the text
read from the migration file: whenever the migration execute step runs,
its argument is the loaded payload verbatim, every migration-execute
event in the run carries that payload, and the comment-stripping value
`sql_clean` is executed only if it coincides with the payload. -/
theorem execute_arg_is_verbatim_payload (env : Env) (s : String)
    (hf : env.fileContent = some s) (hc : env.connectErr = none) :
    Event.executeMigration s ∈ (runMigration env).events ∧
    (∀ t, Event.executeMigration t ∈ (runMigration env).events → t = s) ∧
    (Event.executeMigration (sql_clean s) ∈ (runMigration env).events →
      sql_clean s = s) := by
  rcases env with ⟨fc, ce, ee, d, m, a⟩
  subst hf; subst hc
  cases ee with
  | some e =>
      refine ⟨by simp [runMigration], ?_, ?_⟩
      · intro t ht
        simpa [runMigration] using ht
      · intro hcl
        simpa [runMigration] using hcl
  | none =>
      refine ⟨by simp [runMigration], ?_, ?_⟩
      · intro t ht
        simpa [runMigration] using ht
      · intro hcl
        simpa [runMigration] using hcl

/-- C1 witness: a concrete run with a comment-bearing payload. -/
theorem execute_arg_is_verbatim_payload_witness :
    envOkNoAdmin.fileContent = some payload1 ∧
    envOkNoAdmin.connectErr = none ∧
    Event.executeMigration payload1 ∈ (runMigration envOkNoAdmin).events ∧
    (∀ t, Event.executeMigration t ∈ (runMigration envOkNoAdmin).events →
      t = payload1) :=
  ⟨rfl, rfl, (execute_arg_is_verbatim_payload envOkNoAdmin payload1 rfl rfl).1,
   (execute_arg_is_verbatim_payload envOkNoAdmin payload1 rfl rfl).2.1⟩

/-- C3: if `cursor.execute(sql_content)` raises an engine-side error,
the run exits with code 1 after attempting the execution and no
verification query is run. -/
theorem exec_error_skips_verification (env : Env) (s e : String)
    (hf : env.fileContent = some s) (hc : env.connectErr = none)
    (he : env.execErr = some e) :
    (runMigration env).exitCode = 1 ∧
    Event.executeMigration s ∈ (runMigration env).events ∧
    (∀ q, Event.query q ∉ (runMigration env).events) := by
  rcases env with ⟨fc, ce, ee, d, m, a⟩
  subst hf; subst hc; subst he
  refine ⟨rfl, by simp [runMigration], ?_⟩
  intro q hq
  simp [runMigration] at hq

/-- C3 witness: a concrete run whose payload raises a syntax error. -/
theorem exec_error_skips_verification_witness :
    envExecFail.fileContent = some "CREATE TABLE broken (" ∧
    envExecFail.connectErr = none ∧
    envExecFail.execErr = some "syntax error at end of input" ∧
    (runMigration envExecFail).exitCode = 1 ∧
    Event.query duelsQuery ∉ (runMigration envExecFail).events :=
  ⟨rfl, rfl, rfl,
   (exec_error_skips_verification envExecFail _ _ rfl rfl rfl).1,
   (exec_error_skips_verification envExecFail _ _ rfl rfl rfl).2.2 duelsQuery⟩

/-- C4: when the migration file path does not resolve, the run exits
with code 1, prints the file-not-found diagnostic exactly once, and
never attempts a database connection. -/
theorem missing_file_aborts_without_connect (env : Env)
    (hf : env.fileContent = none) :
    (runMigration env).exitCode = 1 ∧
    (runMigration env).output.count notFoundLine = 1 ∧
    Event.connect ∉ (runMigration env).events := by
  rcases env with ⟨fc, ce, ee, d, m, a⟩
  subst hf
  refine ⟨rfl, ?_, ?_⟩
  · show List.count notFoundLine ["📖 Reading migration file...", notFoundLine] = 1
    decide
  · intro h
    simp [runMigration] at h

/-- C4 witness: the concrete missing-file run. -/
theorem missing_file_aborts_without_connect_witness :
    envNoFile.fileContent = none ∧
    (runMigration envNoFile).exitCode = 1 ∧
    (runMigration envNoFile).output.count notFoundLine = 1 ∧
    Event.connect ∉ (runMigration envNoFile).events :=
  ⟨rfl, (missing_file_aborts_without_connect envNoFile rfl).1,
   (missing_file_aborts_without_connect envNoFile rfl).2.1,
   (missing_file_aborts_without_connect envNoFile rfl).2.2⟩

/-- C5: when the migration executes successfully but the admin lookup
returns no row, the run prints the not-found warning and still exits
with code 0. -/
theorem admin_lookup_miss_nonfatal (env : Env) (s : String)
    (hf : env.fileContent = some s) (hc : env.connectErr = none)
    (he : env.execErr = none) (ha : env.adminRows = []) :
    (runMigration env).exitCode = 0 ∧
    "  ❌ Admin user not found!" ∈ (runMigration env).output := by
  rcases env with ⟨fc, ce, ee, d, m, a⟩
  subst hf; subst hc; subst he; subst ha
  exact ⟨rfl, by simp [runMigration, successOutput, adminSection]⟩

/-- C5 witness: a concrete successful run with an empty admin result. -/
theorem admin_lookup_miss_nonfatal_witness :
    envOkNoAdmin.adminRows = [] ∧
    (runMigration envOkNoAdmin).exitCode = 0 ∧
    "  ❌ Admin user not found!" ∈ (runMigration envOkNoAdmin).output :=
  ⟨rfl, (admin_lookup_miss_nonfatal envOkNoAdmin payload1 rfl rfl rfl rfl).1,
   (admin_lookup_miss_nonfatal envOkNoAdmin payload1 rfl rfl rfl rfl).2⟩

/-- C6: with exactly one matching admin row, the verification step
displays that row's id, role, wallet and creation timestamp on one line
each — the admin display is exactly the five lines below. -/
theorem single_admin_record_displayed (env : Env) (s : String) (r : AdminRow)
    (hf : env.fileContent = some s) (hc : env.connectErr = none)
    (he : env.execErr = none) (ha : env.adminRows = [r]) :
    (runMigration env).exitCode = 0 ∧
    (runMigration env).output = successOutput env ∧
    adminSection env.adminRows =
      ["\n👤 Admin user:",
       "  ID: " ++ toString r.id,
       "  Role: " ++ r.role,
       "  Wallet: " ++ r.wallet,
       "  Created: " ++ r.created_at] := by
  rcases env with ⟨fc, ce, ee, d, m, a⟩
  subst hf; subst hc; subst he; subst ha
  exact ⟨rfl, rfl, rfl⟩

/-- C6 witness: the concrete single-admin run. -/
theorem single_admin_record_displayed_witness :
    envOkAdmin.adminRows = [sampleAdmin] ∧
    (runMigration envOkAdmin).exitCode = 0 ∧
    adminSection envOkAdmin.adminRows =
      ["\n👤 Admin user:",
       "  ID: " ++ toString sampleAdmin.id,
       "  Role: " ++ sampleAdmin.role,
       "  Wallet: " ++ sampleAdmin.wallet,
       "  Created: " ++ sampleAdmin.created_at] :=
  ⟨rfl,
   (single_admin_record_displayed envOkAdmin _ sampleAdmin rfl rfl rfl rfl).1,
   (single_admin_record_displayed envOkAdmin _ sampleAdmin rfl rfl rfl rfl).2.2⟩

end Bebrafun

namespace Bebrafun

/-- C2 counterexample: on the concrete run where the file loads and the
connection opens but `cursor.execute` raises, the process exits with
code 1 and its trace contains no close of the opened connection — the
`except` handlers of lines 80-88 call `sys.exit(1)` without
`conn.close()`, so closure is not unconditional across error paths. -/
theorem close_skipped_on_exec_error :
    Event.connect ∈ (runMigration envExecFail).events ∧
    (runMigration envExecFail).exitCode = 1 ∧
    Event.closeConn ∉ (runMigration envExecFail).events ∧
    Event.closeCursor ∉ (runMigration envExecFail).events := by
  decide

/-- C2 amended: the cursor and the connection are closed exactly on the
runs that complete verification (exit code 0); on every aborting run —
including those that abort after the connection was opened — the script
itself performs no close before exiting. -/
theorem close_exactly_on_success (env : Env) :
    (Event.closeConn ∈ (runMigration env).events ↔
      (runMigration env).exitCode = 0) ∧
    (Event.closeCursor ∈ (runMigration env).events ↔
      (runMigration env).exitCode = 0) := by
  rcases env with ⟨fc, ce, ee, d, m, a⟩
  cases fc with
  | none => simp [runMigration]
  | some s =>
      cases ce with
      | some e => simp [runMigration]
      | none =>
          cases ee with
          | some e => simp [runMigration]
          | none => simp [runMigration]

/-- C2 witness: the closure facts instantiated on a concrete successful
run. -/
theorem close_exactly_on_success_witness :
    (Event.closeConn ∈ (runMigration envOkAdmin).events ↔
      (runMigration envOkAdmin).exitCode = 0) ∧
    (Event.closeCursor ∈ (runMigration envOkAdmin).events ↔
      (runMigration envOkAdmin).exitCode = 0) :=
  close_exactly_on_success envOkAdmin

/-- C7: in every run the trace is ordered by program phase — the file
read precedes the migration execution, which precedes every
verification query — and an execution implies the read happened, a
verification query implies the execution happened. -/
theorem strict_order_read_execute_verify (env : Env) :
    List.Pairwise (fun a b => phase a ≤ phase b) (runMigration env).events ∧
    (∀ s, Event.executeMigration s ∈ (runMigration env).events →
        Event.readFile migration_file ∈ (runMigration env).events) ∧
    (∀ q, Event.query q ∈ (runMigration env).events →
        ∃ s, Event.executeMigration s ∈ (runMigration env).events) := by
  refine ⟨events_phase_sorted env, ?_, ?_⟩
  · rcases env with ⟨fc, ce, ee, d, m, a⟩
    intro s hs
    cases fc with
    | none => simp [runMigration]
    | some s0 =>
        cases ce with
        | some e => simp [runMigration]
        | none => cases ee <;> simp [runMigration]
  · rcases env with ⟨fc, ce, ee, d, m, a⟩
    intro q hq
    cases fc with
    | none => simp [runMigration] at hq
    | some s0 =>
        cases ce with
        | some e => simp [runMigration] at hq
        | none =>
            cases ee with
            | some e => simp [runMigration] at hq
            | none => exact ⟨s0, by simp [runMigration]⟩

/-- C7 witness: the ordering facts instantiated on a concrete
successful run. -/
theorem strict_order_read_execute_verify_witness :
    Event.readFile migration_file ∈ (runMigration envOkAdmin).events ∧
    (∃ s, Event.executeMigration s ∈ (runMigration envOkAdmin).events) :=
  ⟨(strict_order_read_execute_verify envOkAdmin).2.1
      "INSERT INTO admin_users VALUES (3);" (by decide),
   (strict_order_read_execute_verify envOkAdmin).2.2 duelsQuery (by decide)⟩

/-- C8 counterexample: on the concrete missing-file run no database
connection is opened at all, so "exactly one connection is opened per
run" fails as a statement about every run. -/
theorem no_connection_on_missing_file :
    (runMigration envNoFile).events.count Event.connect = 0 ∧
    (runMigration envNoFile).events.count Event.connect ≠ 1 := by
  decide

/-- C8 amended: at most one connection is opened per run — exactly one
on every run that reaches the connect step — the trace stays in program
order (so `conn.autocommit = True`, phase 2, precedes every statement
execution, phases 3-4), autocommit is set whenever the migration
executes, and no explicit transaction event ever occurs. -/
theorem at_most_one_connection_autocommit_no_txn (env : Env) :
    (runMigration env).events.count Event.connect ≤ 1 ∧
    (∀ s, env.fileContent = some s →
        (runMigration env).events.count Event.connect = 1) ∧
    List.Pairwise (fun a b => phase a ≤ phase b) (runMigration env).events ∧
    (∀ t, Event.executeMigration t ∈ (runMigration env).events →
        Event.setAutocommit ∈ (runMigration env).events) ∧
    Event.beginTxn ∉ (runMigration env).events ∧
    Event.commitTxn ∉ (runMigration env).events := by
  rcases env with ⟨fc, ce, ee, d, m, a⟩
  refine ⟨?_, ?_, events_phase_sorted _, ?_, ?_, ?_⟩
  · cases fc with
    | none => simp [runMigration]
    | some s0 =>
        cases ce with
        | some e => simp [runMigration]
        | none => cases ee <;> simp [runMigration]
  · intro s hs
    cases hs
    cases ce with
    | some e => simp [runMigration]
    | none => cases ee <;> simp [runMigration]
  · intro t ht
    cases fc with
    | none => simp [runMigration] at ht
    | some s0 =>
        cases ce with
        | some e => simp [runMigration] at ht
        | none => cases ee <;> simp [runMigration]
  · cases fc with
    | none => simp [runMigration]
    | some s0 =>
        cases ce with
        | some e => simp [runMigration]
        | none => cases ee <;> simp [runMigration]
  · cases fc with
    | none => simp [runMigration]
    | some s0 =>
        cases ce with
        | some e => simp [runMigration]
        | none => cases ee <;> simp [runMigration]

/-- C8 witness: the amended facts instantiated on a concrete run that
reaches the connect step. -/
theorem at_most_one_connection_autocommit_no_txn_witness :
    envOkAdmin.fileContent = some "INSERT INTO admin_users VALUES (3);" ∧
    (runMigration envOkAdmin).events.count Event.connect = 1 ∧
    Event.setAutocommit ∈ (runMigration envOkAdmin).events ∧
    Event.beginTxn ∉ (runMigration envOkAdmin).events :=
  ⟨rfl,
   (at_most_one_connection_autocommit_no_txn envOkAdmin).2.1 _ rfl,
   (at_most_one_connection_autocommit_no_txn envOkAdmin).2.2.2.1
      "INSERT INTO admin_users VALUES (3);" (by decide),
   (at_most_one_connection_autocommit_no_txn envOkAdmin).2.2.2.2.1⟩

/-- C10: the admin verification reports at most one record: a run whose
admin query returns several rows behaves identically to the run whose
result holds only the first row (only that row is fetched by
`fetchone()` and displayed). -/
theorem duplicate_admin_rows_ignored (env : Env) (r : AdminRow)
    (rest : List AdminRow) (ha : env.adminRows = r :: rest) :
    runMigration env = runMigration { env with adminRows := [r] } ∧
    adminSection (r :: rest) = adminSection [r] := by
  rcases env with ⟨fc, ce, ee, d, m, a⟩
  subst ha
  refine ⟨?_, rfl⟩
  cases fc with
  | none => rfl
  | some s =>
      cases ce with
      | some e => rfl
      | none => cases ee <;> rfl

/-- C10 witness: the concrete two-row run equals its one-row
truncation. -/
theorem duplicate_admin_rows_ignored_witness :
    envTwoAdmins.adminRows = sampleAdmin :: [otherAdmin] ∧
    runMigration envTwoAdmins =
      runMigration { envTwoAdmins with adminRows := [sampleAdmin] } ∧
    adminSection (sampleAdmin :: [otherAdmin]) = adminSection [sampleAdmin] :=
  ⟨rfl,
   (duplicate_admin_rows_ignored envTwoAdmins sampleAdmin [otherAdmin] rfl).1,
   (duplicate_admin_rows_ignored envTwoAdmins sampleAdmin [otherAdmin] rfl).2⟩

end Bebrafun

namespace FixAuth

set_option maxRecDepth 100000 in
set_option maxHeartbeats 1000000 in
/-- C9: when `old_pattern` has no match in the input content, the
content written back equals the content read; the success message is
printed in either case; and on a concrete content in the shape the
patch targets, the first run patches it (a match exists), the patched
text matches nowhere, and a second run leaves it unchanged. -/
theorem patch_noop_without_match :
    (∀ content, hasMatch content = false → fixAuthContent content = content) ∧
    (∀ content, fixAuthOutput content = ["✅ File updated!"]) ∧
    hasMatch sampleOld = true ∧
    hasMatch (fixAuthContent sampleOld) = false ∧
    fixAuthContent (fixAuthContent sampleOld) = fixAuthContent sampleOld := by
  have key : ∀ content : String,
      hasMatch content = false → fixAuthContent content = content := by
    intro content h
    have h2 := subScan_eq_of_no_match content.data h (content.data.length + 1)
    show String.mk (subScan (content.data.length + 1) content.data) = content
    rw [h2]
  have hm2 : hasMatch (fixAuthContent sampleOld) = false := by decide
  exact ⟨key, fun _ => rfl, by decide, hm2, key _ hm2⟩

/-- C9 witness: a content without a match is written back unchanged. -/
theorem patch_noop_without_match_witness :
    hasMatch "export const x = 1;" = false ∧
    fixAuthContent "export const x = 1;" = "export const x = 1;" ∧
    fixAuthOutput "export const x = 1;" = ["✅ File updated!"] :=
  ⟨by decide, patch_noop_without_match.1 "export const x = 1;" (by decide),
   patch_noop_without_match.2.1 "export const x = 1;"⟩

end FixAuth
